import Mathlib

/-!
Verification of the Compliance Evidence Collector (`audit.py`).

The Python program collects Windows security evidence, normalizes each
adapter call into an availability record, scores the normalized evidence
with `score_findings`, and renders HTML/PDF reports.  This file gives a
shallow embedding of the pure logic of that program and proves the
specification's claims about it.

Conventions of the embedding:
* A scalar Python/JSON value (as produced by `json.loads` on the adapter
  output used here) is a `PyVal`: a boolean, a string, `None`/`null`, or an
  integer.  Python truthiness on these values is `pyTruthy`, and Python's
  `str(...)` on them is `pyStr`.
* A Python dict (a JSON object) is an association list `Dict`;
  `dict.get(key, default)` is `dictGet`.
* Machine integers do not occur (Python integers are unbounded), so scores
  are `Int`.
* `subprocess` and `json.loads` are external collaborators: each
  normalizer takes the adapter triple `(code, out, err)` and the structured
  parse as an explicit function (returning `none` on a
  `json.JSONDecodeError`), and is otherwise a faithful translation.
-/

/-- A scalar Python value as delivered by `json.loads` of adapter output:
boolean, string, `None` (JSON `null`) or integer. -/
inductive PyVal where
  | bool : Bool → PyVal
  | str : String → PyVal
  | none : PyVal
  | int : Int → PyVal
deriving DecidableEq

/-- Python truthiness of a scalar value (`bool(v)`). -/
def pyTruthy : PyVal → Bool
  | .bool b => b
  | .str s => !(s == "")
  | .none => false
  | .int n => !(n == 0)

/-- Python `str(v)` on a scalar value. -/
def pyStr : PyVal → String
  | .bool true => "True"
  | .bool false => "False"
  | .str s => s
  | .none => "None"
  | .int n => toString n

/-- A Python dict with scalar values (a parsed JSON object). -/
def Dict := List (String × PyVal)
deriving DecidableEq

/-- Python `d.get(key, default)`. -/
def dictGet (d : Dict) (key : String) (default : PyVal) : PyVal :=
  (List.lookup key d).getD default

/-- Python `d.get(key)` (default `None`, kept as `Option` so that absence is
distinguishable). -/
def dictGet? (d : Dict) (key : String) : Option PyVal :=
  List.lookup key d

/-- Python truthiness of `d.get(key)`: `None` (absent) is falsy. -/
def pyTruthyOpt : Option PyVal → Bool
  | Option.none => false
  | Option.some v => pyTruthy v

/-- Python `a or b` on strings: `a` if non-empty, else `b`. -/
def strOr (a b : String) : String :=
  if a == "" then b else a

/-- Python `sep.join(xs)`. -/
def pyJoin (sep : String) : List String → String
  | [] => ""
  | [x] => x
  | x :: xs => x ++ sep ++ pyJoin sep xs

/-- Python `s.lower()` restricted to the basic-latin case mapping (the only
case the program's data exercises): lower every character. -/
def strLower (s : String) : String :=
  ⟨s.data.map Char.toLower⟩

/-- Python `s.upper()`, basic-latin case mapping. -/
def strUpper (s : String) : String :=
  ⟨s.data.map Char.toUpper⟩

/-- Result of `get_defender_status`: the `{"available", "data", "error"}`
dict, with `data` the parsed Defender payload. -/
structure DefenderStatus where
  available : Bool
  data : Dict
  error : String
deriving DecidableEq

/-- Result of `get_firewall_profiles`: profiles is a list of parsed profile
objects. -/
structure FirewallStatus where
  available : Bool
  profiles : List Dict
  error : String
deriving DecidableEq

/-- Result of `get_recent_updates`. -/
structure UpdateHistory where
  available : Bool
  updates : List Dict
  error : String
deriving DecidableEq

/-- Result of `get_local_users`. -/
structure LocalUsers where
  available : Bool
  users : List Dict
  error : String
deriving DecidableEq

/-- A JSON value that is either a single object or a list of objects: the
two shapes `ConvertTo-Json` produces for the list-shaped queries, coerced by
the normalizers with `data if isinstance(data, list) else [data]`. -/
def JsonObjs := Sum (List Dict) Dict

/-- The `data if isinstance(data, list) else [data]` coercion. -/
def coerceList : JsonObjs → List Dict
  | .inl l => l
  | .inr d => [d]

/-- `get_defender_status`, normalization part: given the adapter triple
`(code, out, err)` of `run_powershell` and the structured parse
(`json.loads`, `none` on `JSONDecodeError`), produce the availability
record.  Faithful to `audit.py` lines 52-62. -/
def get_defender_status (code : Int) (out err : String)
    (parse : String → Option Dict) : DefenderStatus :=
  if code = 0 ∧ out ≠ "" then
    match parse out with
    | Option.some data => ⟨true, data, ""⟩
    | Option.none => ⟨true, [], "Failed to parse Defender output."⟩
  else
    ⟨false, [], strOr err "Defender status unavailable."⟩

/-- `get_firewall_profiles`, normalization part (`audit.py` lines 64-75). -/
def get_firewall_profiles (code : Int) (out err : String)
    (parse : String → Option JsonObjs) : FirewallStatus :=
  if code = 0 ∧ out ≠ "" then
    match parse out with
    | Option.some data => ⟨true, coerceList data, ""⟩
    | Option.none => ⟨true, [], "Failed to parse firewall output."⟩
  else
    ⟨false, [], strOr err "Firewall status unavailable."⟩

/-- `get_recent_updates`, normalization part (`audit.py` lines 91-102). -/
def get_recent_updates (code : Int) (out err : String)
    (parse : String → Option JsonObjs) : UpdateHistory :=
  if code = 0 ∧ out ≠ "" then
    match parse out with
    | Option.some data => ⟨true, coerceList data, ""⟩
    | Option.none => ⟨true, [], "Failed to parse update output."⟩
  else
    ⟨false, [], strOr err "Update history unavailable."⟩

/-- `get_local_users`, normalization part (`audit.py` lines 104-114). -/
def get_local_users (code : Int) (out err : String)
    (parse : String → Option JsonObjs) : LocalUsers :=
  if code = 0 ∧ out ≠ "" then
    match parse out with
    | Option.some data => ⟨true, coerceList data, ""⟩
    | Option.none => ⟨true, [], "Failed to parse local user output."⟩
  else
    ⟨false, [], strOr err "Local users unavailable."⟩

/-- A finding: severity, title, detail (`audit.py` finding dicts). -/
structure Finding where
  severity : String
  title : String
  detail : String
deriving DecidableEq

/-- The filter predicate of `audit.py` line 139:
`str(p.get("Enabled", "")).lower() in ("false", "0")`. -/
def disabledProfile (p : Dict) : Bool :=
  let s := strLower (pyStr (dictGet p "Enabled" (PyVal.str "")))
  s == "false" || s == "0"

/-- `p.get("Name", "Unknown")` of `audit.py` line 142.  The Python
`", ".join` expects each name to be a string; the model totalizes with
`pyStr`, which agrees with Python on every payload whose `Name` values are
strings (the only payloads on which the Python code does not raise). -/
def profileName (p : Dict) : String :=
  match dictGet? p "Name" with
  | Option.some v => pyStr v
  | Option.none => "Unknown"

/-- `updates["updates"][0].get("InstalledOn")` of `audit.py` line 147
(evaluated only under the guard that the updates list is non-empty; `none`
for the unreachable empty case). -/
def newestInstalledOn (updates : UpdateHistory) : Option PyVal :=
  match updates.updates with
  | [] => Option.none
  | p :: _ => dictGet? p "InstalledOn"

/-- The scoring engine `score_findings` (`audit.py` lines 116-156): start
from 100, apply the deduction rules in order, clamp to `[0, 100]`.
`sf1` is the state after the Defender checks, `sf2` after the firewall
checks, `sf3` after the update-freshness check. -/
def score_findings (defender : DefenderStatus) (firewall : FirewallStatus)
    (updates : UpdateHistory) : Int × List Finding :=
  let sf0 : Int × List Finding := (100, [])
  -- Defender checks
  let sf1 : Int × List Finding :=
    if !defender.available then
      (sf0.1 - 15, sf0.2 ++ [⟨"medium", "Defender status not readable", defender.error⟩])
    else
      let d := defender.data
      let sfa :=
        if !d.isEmpty && !pyTruthy (dictGet d "RealTimeProtectionEnabled" (PyVal.bool true)) then
          (sf0.1 - 25, sf0.2 ++ [⟨"high", "Real-time protection disabled",
            "Enable Microsoft Defender real-time protection."⟩])
        else sf0
      if !d.isEmpty && !pyTruthy (dictGet d "AntivirusEnabled" (PyVal.bool true)) then
        (sfa.1 - 25, sfa.2 ++ [⟨"high", "Antivirus appears disabled",
          "Verify antivirus is enabled and updating."⟩])
      else sfa
  -- Firewall checks
  let sf2 : Int × List Finding :=
    if !firewall.available then
      (sf1.1 - 10, sf1.2 ++ [⟨"medium", "Firewall status not readable", firewall.error⟩])
    else
      let disabled := firewall.profiles.filter disabledProfile
      if !disabled.isEmpty then
        (sf1.1 - 20, sf1.2 ++ [⟨"high", "Firewall disabled on profiles",
          "Disabled profiles: " ++ pyJoin ", " (disabled.map profileName) ++ "."⟩])
      else sf1
  -- Update freshness check (simple heuristic)
  let sf3 : Int × List Finding :=
    if updates.available && !updates.updates.isEmpty then
      if !pyTruthyOpt (newestInstalledOn updates) then
        (sf2.1 - 5, sf2.2 ++ [⟨"low", "Cannot determine latest update date",
          "InstalledOn missing for newest hotfix."⟩])
      else sf2
    else
      (sf2.1 - 10, sf2.2 ++ [⟨"medium", "Update history not readable", updates.error⟩])
  (max 0 (min 100 sf3.1), sf3.2)

/-- Deduction contributed by the Defender rules (rules 1-3), read off the
same conditions as `score_findings`. -/
def defDed (defender : DefenderStatus) : Int :=
  if !defender.available then 15
  else
    (if !defender.data.isEmpty &&
        !pyTruthy (dictGet defender.data "RealTimeProtectionEnabled" (PyVal.bool true))
     then 25 else 0) +
    (if !defender.data.isEmpty &&
        !pyTruthy (dictGet defender.data "AntivirusEnabled" (PyVal.bool true))
     then 25 else 0)

/-- Findings contributed by the Defender rules, in rule order. -/
def defFindings (defender : DefenderStatus) : List Finding :=
  if !defender.available then
    [⟨"medium", "Defender status not readable", defender.error⟩]
  else
    (if !defender.data.isEmpty &&
        !pyTruthy (dictGet defender.data "RealTimeProtectionEnabled" (PyVal.bool true))
     then [⟨"high", "Real-time protection disabled",
            "Enable Microsoft Defender real-time protection."⟩] else []) ++
    (if !defender.data.isEmpty &&
        !pyTruthy (dictGet defender.data "AntivirusEnabled" (PyVal.bool true))
     then [⟨"high", "Antivirus appears disabled",
            "Verify antivirus is enabled and updating."⟩] else [])

/-- Deduction contributed by the firewall rules (rules 4-5). -/
def fwDed (firewall : FirewallStatus) : Int :=
  if !firewall.available then 10
  else if !(firewall.profiles.filter disabledProfile).isEmpty then 20
  else 0

/-- Findings contributed by the firewall rules. -/
def fwFindings (firewall : FirewallStatus) : List Finding :=
  if !firewall.available then
    [⟨"medium", "Firewall status not readable", firewall.error⟩]
  else if !(firewall.profiles.filter disabledProfile).isEmpty then
    [⟨"high", "Firewall disabled on profiles",
      "Disabled profiles: " ++
        pyJoin ", " ((firewall.profiles.filter disabledProfile).map profileName) ++ "."⟩]
  else []

/-- Deduction contributed by the update rules (rules 6-7). -/
def updDed (updates : UpdateHistory) : Int :=
  if updates.available && !updates.updates.isEmpty then
    if !pyTruthyOpt (newestInstalledOn updates) then 5 else 0
  else 10

/-- Findings contributed by the update rules. -/
def updFindings (updates : UpdateHistory) : List Finding :=
  if updates.available && !updates.updates.isEmpty then
    if !pyTruthyOpt (newestInstalledOn updates) then
      [⟨"low", "Cannot determine latest update date",
        "InstalledOn missing for newest hotfix."⟩]
    else []
  else
    [⟨"medium", "Update history not readable", updates.error⟩]

/-- Normal form of the scoring engine: the score is the clamp of 100 minus
the three sections' deductions, and the findings list is the concatenation
of the three sections' findings in rule order. -/
theorem score_findings_decomp (defender : DefenderStatus) (firewall : FirewallStatus)
    (updates : UpdateHistory) :
    score_findings defender firewall updates =
      (max 0 (min 100 (100 - defDed defender - fwDed firewall - updDed updates)),
       defFindings defender ++ fwFindings firewall ++ updFindings updates) := by
  simp only [score_findings, defDed, defFindings, fwDed, fwFindings, updDed, updFindings]
  by_cases h1 : defender.available <;>
    by_cases h2 : (!defender.data.isEmpty &&
      !pyTruthy (dictGet defender.data "RealTimeProtectionEnabled" (PyVal.bool true))) = true <;>
    by_cases h3 : (!defender.data.isEmpty &&
      !pyTruthy (dictGet defender.data "AntivirusEnabled" (PyVal.bool true))) = true <;>
    by_cases h4 : firewall.available <;>
    by_cases h5 : (!(firewall.profiles.filter disabledProfile).isEmpty) = true <;>
    by_cases h6 : (updates.available && !updates.updates.isEmpty) = true <;>
    by_cases h7 : (!pyTruthyOpt (newestInstalledOn updates)) = true <;>
    simp [h1, h2, h3, h4, h5, h6, h7]

/-- C1: for every triple of evidence inputs, the score returned by
`score_findings` lies in `[0, 100]`: the final clamp guarantees the bound
for arbitrary inputs. -/
theorem score_findings_score_in_range (defender : DefenderStatus)
    (firewall : FirewallStatus) (updates : UpdateHistory) :
    0 ≤ (score_findings defender firewall updates).1 ∧
      (score_findings defender firewall updates).1 ≤ 100 := by
  rw [score_findings_decomp]
  constructor
  · exact le_max_left _ _
  · exact max_le (by norm_num) (min_le_left _ _)

/-- C2: scenario B.  Defender available with real-time protection
explicitly false and antivirus enabled, firewall available with exactly one
profile disabled, updates unavailable: the score is `100 - 25 - 20 - 10 = 45`
and the three findings appear in rule order (high real-time, high firewall,
medium updates). -/
theorem score_findings_scenario_b :
    score_findings
      ⟨true, [("RealTimeProtectionEnabled", PyVal.bool false),
              ("AntivirusEnabled", PyVal.bool true)], ""⟩
      ⟨true, [[("Name", PyVal.str "Public"), ("Enabled", PyVal.bool false)]], ""⟩
      ⟨false, [], "Update history unavailable."⟩ =
      (45,
       [⟨"high", "Real-time protection disabled",
         "Enable Microsoft Defender real-time protection."⟩,
        ⟨"high", "Firewall disabled on profiles", "Disabled profiles: Public."⟩,
        ⟨"medium", "Update history not readable", "Update history unavailable."⟩]) := by
  decide

/-- Membership in the Defender findings determines the title. -/
theorem title_of_mem_defFindings {f : Finding} {d : DefenderStatus}
    (h : f ∈ defFindings d) :
    f.title = "Defender status not readable" ∨
    f.title = "Real-time protection disabled" ∨
    f.title = "Antivirus appears disabled" := by
  unfold defFindings at h
  split_ifs at h <;> simp_all <;> rcases h with rfl | rfl <;> simp

/-- Membership in the firewall findings determines the title. -/
theorem title_of_mem_fwFindings {f : Finding} {fw : FirewallStatus}
    (h : f ∈ fwFindings fw) :
    f.title = "Firewall status not readable" ∨
    f.title = "Firewall disabled on profiles" := by
  unfold fwFindings at h
  split_ifs at h <;> simp_all

/-- Membership in the update findings determines the title. -/
theorem title_of_mem_updFindings {f : Finding} {u : UpdateHistory}
    (h : f ∈ updFindings u) :
    f.title = "Update history not readable" ∨
    f.title = "Cannot determine latest update date" := by
  unfold updFindings at h
  split_ifs at h <;> simp_all

/-- The guard `not d.get(key, True)` holds exactly when the key is present
with a Python-falsy value (absence defaults to `True`, which is truthy). -/
theorem falsy_field_iff (d : Dict) (k : String) :
    (!pyTruthy (dictGet d k (PyVal.bool true))) = true ↔
      ∃ v, dictGet? d k = Option.some v ∧ pyTruthy v = false := by
  unfold dictGet dictGet?
  cases h : List.lookup k d <;> simp [h, pyTruthy]

/-- C3 counterexample: rule 2 fires on a Defender payload whose
`RealTimeProtectionEnabled` is present but `null` (a Python-falsy value
that is not the explicit boolean `false`): the rule does not fire *only*
on explicitly-false fields. -/
theorem rule2_fires_on_null_value :
    (⟨"high", "Real-time protection disabled",
      "Enable Microsoft Defender real-time protection."⟩ : Finding) ∈
      (score_findings
        ⟨true, [("RealTimeProtectionEnabled", PyVal.none)], ""⟩
        ⟨true, [[("Name", PyVal.str "Public"), ("Enabled", PyVal.bool true)]], ""⟩
        ⟨true, [[("InstalledOn", PyVal.str "1/1/2024")]], ""⟩).2 ∧
    dictGet? [("RealTimeProtectionEnabled", PyVal.none)] "RealTimeProtectionEnabled" ≠
      Option.some (PyVal.bool false) := by
  decide

/-- C3 (amended): rules 2 and 3 fire exactly when the Defender payload is
non-empty and the corresponding field is present with a Python-falsy value;
in particular, when a field is absent that rule applies no deduction and
emits no finding (fail-open default). -/
theorem score_findings_rules23_fail_open (d : DefenderStatus)
    (fw : FirewallStatus) (u : UpdateHistory) (h : d.available = true) :
    ((⟨"high", "Real-time protection disabled",
        "Enable Microsoft Defender real-time protection."⟩ : Finding) ∈
        (score_findings d fw u).2 ↔
      d.data ≠ [] ∧
        ∃ v, dictGet? d.data "RealTimeProtectionEnabled" = Option.some v ∧
          pyTruthy v = false) ∧
    ((⟨"high", "Antivirus appears disabled",
        "Verify antivirus is enabled and updating."⟩ : Finding) ∈
        (score_findings d fw u).2 ↔
      d.data ≠ [] ∧
        ∃ v, dictGet? d.data "AntivirusEnabled" = Option.some v ∧
          pyTruthy v = false) ∧
    (dictGet? d.data "RealTimeProtectionEnabled" = Option.none ∧
       dictGet? d.data "AntivirusEnabled" = Option.none →
      defDed d = 0 ∧
      (score_findings d fw u).2 = fwFindings fw ++ updFindings u ∧
      (score_findings d fw u).1 = max 0 (min 100 (100 - fwDed fw - updDed u))) := by
  rw [score_findings_decomp]
  refine ⟨?_, ?_, ?_⟩
  · rw [← falsy_field_iff d.data "RealTimeProtectionEnabled"]
    constructor
    · intro hm
      rcases List.mem_append.mp hm with hm | hm
      · rcases List.mem_append.mp hm with hm | hm
        · unfold defFindings at hm
          split_ifs at hm <;> simp_all [List.isEmpty_iff]
        · rcases title_of_mem_fwFindings hm with ht | ht <;> simp_all
      · rcases title_of_mem_updFindings hm with ht | ht <;> simp_all
    · rintro ⟨hne, hf⟩
      refine List.mem_append.mpr (Or.inl (List.mem_append.mpr (Or.inl ?_)))
      unfold defFindings
      simp [h, List.isEmpty_iff, hne, hf]
  · rw [← falsy_field_iff d.data "AntivirusEnabled"]
    constructor
    · intro hm
      rcases List.mem_append.mp hm with hm | hm
      · rcases List.mem_append.mp hm with hm | hm
        · unfold defFindings at hm
          split_ifs at hm <;> simp_all [List.isEmpty_iff]
        · rcases title_of_mem_fwFindings hm with ht | ht <;> simp_all
      · rcases title_of_mem_updFindings hm with ht | ht <;> simp_all
    · rintro ⟨hne, hf⟩
      refine List.mem_append.mpr (Or.inl (List.mem_append.mpr (Or.inl ?_)))
      unfold defFindings
      simp [h, List.isEmpty_iff, hne, hf]
  · rintro ⟨h1, h2⟩
    unfold dictGet? at h1 h2
    have hd : defDed d = 0 := by
      unfold defDed dictGet
      simp [h, h1, h2, pyTruthy]
    have hf : defFindings d = [] := by
      unfold defFindings dictGet
      simp [h, h1, h2, pyTruthy]
    simp [hd, hf]

/-- Witness for the amended C3 theorem at a concrete input: a payload with
both fields absent yields no Defender finding and no Defender deduction. -/
theorem score_findings_rules23_fail_open_witness :
    (⟨"high", "Real-time protection disabled",
        "Enable Microsoft Defender real-time protection."⟩ : Finding) ∉
      (score_findings ⟨true, [("AMServiceEnabled", PyVal.bool true)], ""⟩
        ⟨true, [], ""⟩ ⟨false, [], "e"⟩).2 := by
  have h := score_findings_rules23_fail_open
    ⟨true, [("AMServiceEnabled", PyVal.bool true)], ""⟩
    ⟨true, [], ""⟩ ⟨false, [], "e"⟩ rfl
  intro hm
  have := h.1.mp hm
  revert this
  decide

/-- C4: rules 6 and 7 are mutually exclusive.  For every evidence triple,
the rule-6 finding (low, fires only when updates are available, non-empty,
and the newest entry's `InstalledOn` is missing/empty) and the rule-7
finding (medium, fires when updates are unavailable or empty) never both
appear; each appears exactly under its rule's condition. -/
theorem rules67_mutually_exclusive (d : DefenderStatus) (fw : FirewallStatus)
    (u : UpdateHistory) :
    ((⟨"low", "Cannot determine latest update date",
        "InstalledOn missing for newest hotfix."⟩ : Finding) ∈
        (score_findings d fw u).2 ↔
      u.available = true ∧ u.updates ≠ [] ∧
        pyTruthyOpt (newestInstalledOn u) = false) ∧
    ((⟨"medium", "Update history not readable", u.error⟩ : Finding) ∈
        (score_findings d fw u).2 ↔
      ¬(u.available = true ∧ u.updates ≠ [])) ∧
    ¬((⟨"low", "Cannot determine latest update date",
        "InstalledOn missing for newest hotfix."⟩ : Finding) ∈
        (score_findings d fw u).2 ∧
      (⟨"medium", "Update history not readable", u.error⟩ : Finding) ∈
        (score_findings d fw u).2) := by
  rw [score_findings_decomp]
  have key : ∀ f : Finding, f ∈ updFindings u →
      (u.available = true ∧ u.updates ≠ [] ∧ pyTruthyOpt (newestInstalledOn u) = false ∧
        f = ⟨"low", "Cannot determine latest update date",
          "InstalledOn missing for newest hotfix."⟩) ∨
      (¬(u.available = true ∧ u.updates ≠ []) ∧
        f = ⟨"medium", "Update history not readable", u.error⟩) := by
    intro f hf
    unfold updFindings at hf
    split_ifs at hf with h1 h2 <;> simp_all [List.isEmpty_iff]
  have mem6 : (⟨"low", "Cannot determine latest update date",
      "InstalledOn missing for newest hotfix."⟩ : Finding) ∈
      (defFindings d ++ fwFindings fw ++ updFindings u) ↔
      u.available = true ∧ u.updates ≠ [] ∧ pyTruthyOpt (newestInstalledOn u) = false := by
    constructor
    · intro hm
      rcases List.mem_append.mp hm with hm | hm
      · rcases List.mem_append.mp hm with hm | hm
        · rcases title_of_mem_defFindings hm with ht | ht | ht <;> simp_all
        · rcases title_of_mem_fwFindings hm with ht | ht <;> simp_all
      · rcases key _ hm with ⟨ha, hb, hc, _⟩ | ⟨_, he⟩
        · exact ⟨ha, hb, hc⟩
        · simp_all
    · rintro ⟨ha, hb, hc⟩
      refine List.mem_append.mpr (Or.inr ?_)
      unfold updFindings
      simp [ha, hb, hc, List.isEmpty_iff]
  have mem7 : (⟨"medium", "Update history not readable", u.error⟩ : Finding) ∈
      (defFindings d ++ fwFindings fw ++ updFindings u) ↔
      ¬(u.available = true ∧ u.updates ≠ []) := by
    constructor
    · intro hm
      rcases List.mem_append.mp hm with hm | hm
      · rcases List.mem_append.mp hm with hm | hm
        · rcases title_of_mem_defFindings hm with ht | ht | ht <;> simp_all
        · rcases title_of_mem_fwFindings hm with ht | ht <;> simp_all
      · rcases key _ hm with ⟨_, _, _, he⟩ | ⟨hn, _⟩
        · simp_all
        · exact hn
    · intro hn
      refine List.mem_append.mpr (Or.inr ?_)
      unfold updFindings
      rcases Decidable.not_and_iff_or_not.mp hn with hn | hn
      · have : u.available = false := by simpa using hn
        simp [this]
      · have : u.updates = [] := by simpa using hn
        simp [this]
  refine ⟨mem6, mem7, ?_⟩
  rintro ⟨h6, h7⟩
  exact (mem7.mp h7) ⟨(mem6.mp h6).1, (mem6.mp h6).2.1⟩

/-- C5: the firewall rule.  When firewall evidence is available and at least
one profile is string/case-insensitively disabled, `score_findings` deducts
20 and appends the single high finding whose detail is the comma-joined
names of exactly the disabled profiles (with `Unknown` for a disabled
profile missing a `Name`); when no profile matches, the firewall contributes
neither deduction nor finding. -/
theorem score_findings_firewall_rule (d : DefenderStatus) (fw : FirewallStatus)
    (u : UpdateHistory) (h : fw.available = true) :
    (fw.profiles.filter disabledProfile ≠ [] →
      (score_findings d fw u).1 =
        max 0 (min 100 (100 - defDed d - 20 - updDed u)) ∧
      (score_findings d fw u).2 =
        defFindings d ++
          [⟨"high", "Firewall disabled on profiles",
            "Disabled profiles: " ++
              pyJoin ", " ((fw.profiles.filter disabledProfile).map profileName) ++
              "."⟩] ++
          updFindings u) ∧
    (fw.profiles.filter disabledProfile = [] →
      (score_findings d fw u).1 =
        max 0 (min 100 (100 - defDed d - updDed u)) ∧
      (score_findings d fw u).2 = defFindings d ++ updFindings u) := by
  rw [score_findings_decomp]
  constructor
  · intro hne
    unfold fwDed fwFindings
    simp [h, List.isEmpty_iff, hne]
  · intro hemp
    unfold fwDed fwFindings
    simp [h, List.isEmpty_iff, hemp]

/-- Witness for the firewall rule at concrete inputs: one disabled profile
with a name, one without. -/
theorem score_findings_firewall_rule_witness :
    (score_findings ⟨true, [("AntivirusEnabled", PyVal.bool true)], ""⟩
        ⟨true, [[("Name", PyVal.str "Public"), ("Enabled", PyVal.str "False")],
                [("Enabled", PyVal.int 0)],
                [("Name", PyVal.str "Domain"), ("Enabled", PyVal.bool true)]], ""⟩
        ⟨true, [[("InstalledOn", PyVal.str "1/1/2024")]], ""⟩).2 =
      [⟨"high", "Firewall disabled on profiles",
        "Disabled profiles: Public, Unknown."⟩] := by
  have h := score_findings_firewall_rule
    ⟨true, [("AntivirusEnabled", PyVal.bool true)], ""⟩
    ⟨true, [[("Name", PyVal.str "Public"), ("Enabled", PyVal.str "False")],
            [("Enabled", PyVal.int 0)],
            [("Name", PyVal.str "Domain"), ("Enabled", PyVal.bool true)]], ""⟩
    ⟨true, [[("InstalledOn", PyVal.str "1/1/2024")]], ""⟩ rfl
  have h2 := (h.1 (by decide)).2
  rw [h2]
  decide

/-- C10: a Defender section that is available with an empty payload (the
shape the ParseFailure recovery of `get_defender_status` produces)
contributes no deduction and no finding at all, and scores identically to a
fully healthy Defender payload: rules 2 and 3 are guarded by the payload
being non-empty. -/
theorem score_findings_empty_defender_payload (fw : FirewallStatus)
    (u : UpdateHistory) (err : String) :
    score_findings ⟨true, [], err⟩ fw u =
      (max 0 (min 100 (100 - fwDed fw - updDed u)),
       fwFindings fw ++ updFindings u) ∧
    score_findings ⟨true, [], err⟩ fw u =
      score_findings
        ⟨true, [("AMServiceEnabled", PyVal.bool true),
                ("AntispywareEnabled", PyVal.bool true),
                ("AntivirusEnabled", PyVal.bool true),
                ("RealTimeProtectionEnabled", PyVal.bool true)], ""⟩ fw u := by
  have h1 : defDed ⟨true, [], err⟩ = 0 := by
    unfold defDed
    simp
  have h2 : defFindings ⟨true, [], err⟩ = [] := by
    unfold defFindings
    simp
  have h3 : defDed ⟨true, [("AMServiceEnabled", PyVal.bool true),
      ("AntispywareEnabled", PyVal.bool true),
      ("AntivirusEnabled", PyVal.bool true),
      ("RealTimeProtectionEnabled", PyVal.bool true)], ""⟩ = 0 := by decide
  have h4 : defFindings ⟨true, [("AMServiceEnabled", PyVal.bool true),
      ("AntispywareEnabled", PyVal.bool true),
      ("AntivirusEnabled", PyVal.bool true),
      ("RealTimeProtectionEnabled", PyVal.bool true)], ""⟩ = [] := by decide
  rw [score_findings_decomp, score_findings_decomp, h1, h2, h3, h4]
  simp

/-- C6: every evidence-kind normalization recovers, never raises.  Exit
code 0 with non-empty output whose structured parse fails yields an
Available result with an empty/default payload and a non-empty embedded
parse-error string; a non-zero exit code (which covers the timeout
sentinel 124 and missing-executable sentinel 127 of `run_powershell`)
yields an Unavailable result whose reason is the adapter's stderr or the
kind's fixed fallback message. -/
theorem normalizers_recover (code : Int) (out err : String)
    (pd : String → Option Dict) (pf pu pl : String → Option JsonObjs) :
    (code = 0 → out ≠ "" → pd out = Option.none →
      get_defender_status code out err pd =
        ⟨true, [], "Failed to parse Defender output."⟩ ∧
      (get_defender_status code out err pd).error ≠ "") ∧
    (code = 0 → out ≠ "" → pf out = Option.none →
      get_firewall_profiles code out err pf =
        ⟨true, [], "Failed to parse firewall output."⟩ ∧
      (get_firewall_profiles code out err pf).error ≠ "") ∧
    (code = 0 → out ≠ "" → pu out = Option.none →
      get_recent_updates code out err pu =
        ⟨true, [], "Failed to parse update output."⟩ ∧
      (get_recent_updates code out err pu).error ≠ "") ∧
    (code = 0 → out ≠ "" → pl out = Option.none →
      get_local_users code out err pl =
        ⟨true, [], "Failed to parse local user output."⟩ ∧
      (get_local_users code out err pl).error ≠ "") ∧
    (code ≠ 0 →
      ((get_defender_status code out err pd).available = false ∧
        ((get_defender_status code out err pd).error = err ∨
          (get_defender_status code out err pd).error = "Defender status unavailable.")) ∧
      ((get_firewall_profiles code out err pf).available = false ∧
        ((get_firewall_profiles code out err pf).error = err ∨
          (get_firewall_profiles code out err pf).error = "Firewall status unavailable.")) ∧
      ((get_recent_updates code out err pu).available = false ∧
        ((get_recent_updates code out err pu).error = err ∨
          (get_recent_updates code out err pu).error = "Update history unavailable.")) ∧
      ((get_local_users code out err pl).available = false ∧
        ((get_local_users code out err pl).error = err ∨
          (get_local_users code out err pl).error = "Local users unavailable."))) := by
  have hor : ∀ fb : String, strOr err fb = err ∨ strOr err fb = fb := by
    intro fb
    unfold strOr
    by_cases he : err = "" <;> simp [he]
  refine ⟨?_, ?_, ?_, ?_, ?_⟩
  · intro h1 h2 h3
    simp [get_defender_status, h1, h2, h3]
  · intro h1 h2 h3
    simp [get_firewall_profiles, h1, h2, h3]
  · intro h1 h2 h3
    simp [get_recent_updates, h1, h2, h3]
  · intro h1 h2 h3
    simp [get_local_users, h1, h2, h3]
  · intro hc
    refine ⟨?_, ?_, ?_, ?_⟩ <;>
      simp [get_defender_status, get_firewall_profiles, get_recent_updates,
        get_local_users, hc, hor]

/-- Witness for the normalizer theorem: a concrete parse failure and a
concrete non-zero exit. -/
theorem normalizers_recover_witness :
    get_defender_status 0 "x" "" (fun _ => Option.none) =
      ⟨true, [], "Failed to parse Defender output."⟩ ∧
    (get_firewall_profiles 1 "" "boom" (fun _ => Option.none)).available = false := by
  constructor
  · exact ((normalizers_recover 0 "x" "" (fun _ => Option.none) (fun _ => Option.none)
      (fun _ => Option.none) (fun _ => Option.none)).1 rfl (by decide) rfl).1
  · exact (((normalizers_recover 1 "" "boom" (fun _ => Option.none) (fun _ => Option.none)
      (fun _ => Option.none) (fun _ => Option.none)).2.2.2.2 (by decide)).2.1).1

/-- C9 (implicit): an adapter call that exits 0 with empty stdout is
classified Unavailable — with the stderr text, or the fixed fallback when
stderr is empty — not Available with an empty payload: the success path
requires both exit code 0 and non-empty output. -/
theorem normalizers_empty_output_unavailable (err : String)
    (pd : String → Option Dict) (pf : String → Option JsonObjs) :
    get_defender_status 0 "" err pd =
      ⟨false, [], strOr err "Defender status unavailable."⟩ ∧
    get_firewall_profiles 0 "" err pf =
      ⟨false, [], strOr err "Firewall status unavailable."⟩ := by
  constructor <;> simp [get_defender_status, get_firewall_profiles]

/-- The qualitative score label of the HTML renderer (`audit.py` line
166). -/
def score_label (score : Int) : String :=
  if score ≥ 90 then "Excellent"
  else if score ≥ 75 then "Good"
  else if score ≥ 60 then "Fair"
  else "Needs Work"

/-- The CSS class of the HTML renderer's score pill (`audit.py` line
167). -/
def score_class (score : Int) : String :=
  if score ≥ 90 then "s-ex"
  else if score ≥ 75 then "s-good"
  else if score ≥ 60 then "s-fair"
  else "s-bad"

/-- `score_bucket` of the PDF renderer (`audit.py` lines 387-394); the
ReportLab accent color is modelled by its hex string. -/
def score_bucket (s : Int) : String × String :=
  if s ≥ 90 then ("Excellent", "#16a34a")
  else if s ≥ 75 then ("Good", "#22c55e")
  else if s ≥ 60 then ("Fair", "#f59e0b")
  else ("Needs Work", "#ef4444")

/-- C8: the HTML renderer's label and the PDF renderer's bucket are the
same function of the score, with the claimed half-open threshold
buckets. -/
theorem score_label_eq_score_bucket (score : Int) :
    (score_bucket score).1 = score_label score ∧
    (score_label score = "Excellent" ↔ 90 ≤ score) ∧
    (score_label score = "Good" ↔ 75 ≤ score ∧ score < 90) ∧
    (score_label score = "Fair" ↔ 60 ≤ score ∧ score < 75) ∧
    (score_label score = "Needs Work" ↔ score < 60) := by
  unfold score_label score_bucket
  split_ifs with h1 h2 h3 <;>
    refine ⟨rfl, ?_, ?_, ?_, ?_⟩ <;>
    simp <;>
    omega

/-- One character of the `esc` helper: `&`, `<`, `>` become their HTML
entities, every other character passes through. -/
def escChar (c : Char) : List Char :=
  if c = '&' then "&amp;".data
  else if c = '<' then "&lt;".data
  else if c = '>' then "&gt;".data
  else [c]

/-- `escChar` over a character list. -/
def escList (s : List Char) : List Char :=
  (s.map escChar).flatten

/-- The `esc` helper of `render_html` (`audit.py` lines 163-164):
`(s or "").replace("&", "&amp;").replace("<", "&lt;").replace(">", "&gt;")`.
The three sequential global replaces equal this single left-to-right
character pass: the first replace rewrites every original `&` to `&amp;`,
whose characters the later replaces leave alone (`&amp;` holds no `<` or
`>`), and `&lt;` holds no `>` for the final replace to rewrite.  (The
`s or ""` guard only handles a `None` input; the model's fields are
strings.) -/
def esc (s : String) : String :=
  ⟨escList s.data⟩

/-- `fmt_bool` of `render_html` (`audit.py` lines 174-175). -/
def fmt_bool (v : Bool) : String :=
  if v then "Available" else "Unavailable"

/-- One findings-table row of `render_html` (`audit.py` lines 183-187),
including the severity badge. -/
def rowStr (f : Finding) : String :=
  let sev := strLower (esc f.severity)
  let title := esc f.title
  let detail := esc f.detail
  let sev_badge := "<span class='sev sev-" ++ sev ++ "'>" ++ strUpper sev ++ "</span>"
  "<tr><td>" ++ sev_badge ++ "</td><td><b>" ++ title ++
    "</b><div class='muted'>" ++ detail ++
    "</div></td><td class='right'>Action</td></tr>"

/-- The placeholder row when there are no findings (`audit.py` line 179). -/
def noFindingsRow : String :=
  "<tr><td colspan='3' class='muted'>No major findings detected.</td></tr>"

/-- The findings-table body (`audit.py` lines 178-188). -/
def findingsRows (findings : List Finding) : String :=
  if findings.isEmpty then noFindingsRow
  else pyJoin "\n" (findings.map rowStr)

/-- `get_basic_system_info`'s shape (`audit.py` lines 31-37). -/
structure SystemInfo where
  hostname : String
  os : String
  python_version : String
  timestamp_utc : String
deriving DecidableEq

/-- Result of `get_bitlocker_status` (`audit.py` lines 78-88). -/
structure BitlockerStatus where
  available : Bool
  raw : String
  error : String
deriving DecidableEq

/-- The report model assembled in `main` (`audit.py` lines 691-701): the
sole input of both renderers. -/
structure Report where
  system : SystemInfo
  uptime_seconds : Option Int
  score : Int
  findings : List Finding
  defender : DefenderStatus
  firewall : FirewallStatus
  bitlocker : BitlockerStatus
  updates : UpdateHistory
  local_users : LocalUsers
deriving DecidableEq

/-- The uptime cell: `uptime if uptime is not None else "N/A"` rendered by
the f-string (`audit.py` line 327). -/
def uptimeStr : Option Int → String
  | Option.some u => toString u
  | Option.none => "N/A"
/-- Static chunk 0 of the `render_html` template f-string. -/
def tpl0 : String :=
  "<!doctype html>
<html lang=\"en\">
<head>
  <meta charset=\"utf-8\">
  <meta name=\"viewport\" content=\"width=device-width, initial-scale=1\">
  <title>Compliance Evidence Report - "

/-- Part 0 of static chunk 1 of the `render_html` template. -/
def tpl1p0 : String :=
  "</title>
  <style>
    :root \x7b
      --bg: #0b0f17;
      --panel: #111827;
      --panel2: #0f172a;
      --text: #e5e7eb;
      --muted: #9ca3af;
      --border: rgba(255,255,255,0.08);
      --shadow: rgba(0,0,0,0.45);
      --good: #22c55e;
      --warn: #f59e0b;
      --bad:  #ef4444;
      --info: #60a5fa;
    \x7d
    * \x7b box-sizing: border-box; \x7d
    body \x7b
      margin: 0;
"

/-- Part 1 of static chunk 1 of the `render_html` template. -/
def tpl1p1 : String :=
  "      font-family: ui-sans-serif, system-ui, -apple-system, Segoe UI, Roboto, Arial, \"Apple Color Emoji\", \"Segoe UI Emoji\";
      background: radial-gradient(1200px 600px at 20% 0%, rgba(96,165,250,0.18), transparent 55%),
                  radial-gradient(1200px 600px at 80% 10%, rgba(34,197,94,0.12), transparent 55%),
                  var(--bg);
      color: var(--text);
    \x7d
"

/-- Part 2 of static chunk 1 of the `render_html` template. -/
def tpl1p2 : String :=
  "    .wrap \x7b max-width: 1100px; margin: 0 auto; padding: 28px 18px 50px; \x7d
    .top \x7b
      display: flex; align-items: flex-start; justify-content: space-between; gap: 14px;
      margin-bottom: 18px;
    \x7d
    h1 \x7b font-size: 26px; margin: 0 0 6px; letter-spacing: 0.2px; \x7d
    .sub \x7b color: var(--muted); font-size: 13px; line-height: 1.35; \x7d
    .pill \x7b
      display: inline-flex; align-items: center; gap: 10px;
"

/-- Part 3 of static chunk 1 of the `render_html` template. -/
def tpl1p3 : String :=
  "      background: rgba(255,255,255,0.06);
      border: 1px solid var(--border);
      border-radius: 999px;
      padding: 10px 14px;
      box-shadow: 0 8px 24px var(--shadow);
      min-width: 210px;
      justify-content: space-between;
    \x7d
    .score \x7b
      font-size: 22px; font-weight: 800; letter-spacing: 0.4px;
    \x7d
    .slabel \x7b
"

/-- Part 4 of static chunk 1 of the `render_html` template. -/
def tpl1p4 : String :=
  "      font-size: 12px; padding: 6px 10px; border-radius: 999px; border: 1px solid var(--border);
      background: rgba(255,255,255,0.06);
    \x7d
    .s-ex .slabel \x7b border-color: rgba(34,197,94,0.35); \x7d
    .s-good .slabel \x7b border-color: rgba(34,197,94,0.25); \x7d
    .s-fair .slabel \x7b border-color: rgba(245,158,11,0.35); \x7d
    .s-bad .slabel \x7b border-color: rgba(239,68,68,0.35); \x7d

    .grid \x7b
      display: grid;
"

/-- Part 5 of static chunk 1 of the `render_html` template. -/
def tpl1p5 : String :=
  "      grid-template-columns: repeat(12, 1fr);
      gap: 14px;
      margin-top: 14px;
    \x7d
    .card \x7b
      background: linear-gradient(180deg, rgba(255,255,255,0.06), rgba(255,255,255,0.03));
      border: 1px solid var(--border);
      border-radius: 14px;
      padding: 16px;
      box-shadow: 0 10px 30px var(--shadow);
    \x7d
    .span-12 \x7b grid-column: span 12; \x7d
    .span-8 \x7b grid-column: span 8; \x7d
"

/-- Part 6 of static chunk 1 of the `render_html` template. -/
def tpl1p6 : String :=
  "    .span-4 \x7b grid-column: span 4; \x7d
    .span-6 \x7b grid-column: span 6; \x7d
    .title \x7b font-size: 14px; font-weight: 700; margin: 0 0 10px; color: #f3f4f6; \x7d
    .muted \x7b color: var(--muted); \x7d
    .kpi \x7b
      display: grid; gap: 8px;
    \x7d
"

/-- Part 7 of static chunk 1 of the `render_html` template. -/
def tpl1p7 : String :=
  "    .krow \x7b display: flex; justify-content: space-between; gap: 10px; font-size: 13px; padding: 8px 10px; border-radius: 10px; background: rgba(0,0,0,0.18); border: 1px solid var(--border); \x7d
    .krow b \x7b font-weight: 700; color: #f9fafb; \x7d
    table \x7b width: 100%; border-collapse: collapse; \x7d
    th, td \x7b text-align: left; padding: 10px 10px; border-bottom: 1px solid var(--border); vertical-align: top; \x7d
"

/-- Part 8 of static chunk 1 of the `render_html` template. -/
def tpl1p8 : String :=
  "    th \x7b font-size: 12px; color: var(--muted); font-weight: 700; letter-spacing: 0.3px; \x7d
    .right \x7b text-align: right; color: var(--muted); font-size: 12px; \x7d
    .sev \x7b
      display: inline-block; font-size: 11px; font-weight: 800;
      padding: 4px 8px; border-radius: 999px;
      border: 1px solid var(--border);
      background: rgba(255,255,255,0.06);
    \x7d
"

/-- Part 9 of static chunk 1 of the `render_html` template. -/
def tpl1p9 : String :=
  "    .sev-high \x7b border-color: rgba(239,68,68,0.55); \x7d
    .sev-medium \x7b border-color: rgba(245,158,11,0.55); \x7d
    .sev-low \x7b border-color: rgba(96,165,250,0.55); \x7d
    .sev-info \x7b border-color: rgba(96,165,250,0.35); \x7d

    .footer \x7b
      margin-top: 16px;
      color: var(--muted);
      font-size: 12px;
    \x7d
    @media print \x7b
      body \x7b background: #fff; color: #111; \x7d
      .card \x7b box-shadow: none; \x7d
"

/-- Part 10 of static chunk 1 of the `render_html` template. -/
def tpl1p10 : String :=
  "      .pill \x7b box-shadow: none; \x7d
      .muted \x7b color: #444; \x7d
    \x7d
  </style>
</head>
<body>
  <div class=\"wrap\">
    <div class=\"top\">
      <div>
        <h1>Compliance Evidence Report</h1>
        <div class=\"sub\">
          Host: <b>"

/-- Static chunk 1 of the `render_html` template f-string. -/
def tpl1 : String :=
  tpl1p0 ++ tpl1p1 ++ tpl1p2 ++ tpl1p3 ++ tpl1p4 ++ tpl1p5 ++ tpl1p6 ++ tpl1p7 ++ tpl1p8 ++ tpl1p9 ++ tpl1p10

/-- Static chunk 2 of the `render_html` template f-string. -/
def tpl2 : String :=
  "</b><br>
          OS: "

/-- Static chunk 3 of the `render_html` template f-string. -/
def tpl3 : String :=
  "<br>
          Generated (UTC): "

/-- Static chunk 4 of the `render_html` template f-string. -/
def tpl4 : String :=
  "
        </div>
      </div>
      <div class=\"pill "

/-- Static chunk 5 of the `render_html` template f-string. -/
def tpl5 : String :=
  "\">
        <div>
          <div class=\"muted\" style=\"font-size:12px;\">Overall Score</div>
          <div class=\"score\">"

/-- Static chunk 6 of the `render_html` template f-string. -/
def tpl6 : String :=
  "/100</div>
        </div>
        <div class=\"slabel\">"

/-- Static chunk 7 of the `render_html` template f-string. -/
def tpl7 : String :=
  "</div>
      </div>
    </div>

    <div class=\"grid\">
      <div class=\"card span-4\">
        <div class=\"title\">Quick Summary</div>
        <div class=\"kpi\">
          <div class=\"krow\"><span>Defender</span><b>"

/-- Static chunk 8 of the `render_html` template f-string. -/
def tpl8 : String :=
  "</b></div>
          <div class=\"krow\"><span>Firewall</span><b>"

/-- Static chunk 9 of the `render_html` template f-string. -/
def tpl9 : String :=
  "</b></div>
          <div class=\"krow\"><span>Updates Found</span><b>"

/-- Static chunk 10 of the `render_html` template f-string. -/
def tpl10 : String :=
  "</b></div>
          <div class=\"krow\"><span>Uptime (sec)</span><b>"

/-- Static chunk 11 of the `render_html` template f-string. -/
def tpl11 : String :=
  "</b></div>
        </div>
      </div>

      <div class=\"card span-8\">
        <div class=\"title\">Findings</div>
        <table>
          <thead>
            <tr>
              <th style=\"width:140px;\">Severity</th>
              <th>Finding</th>
              <th class=\"right\" style=\"width:120px;\">Next</th>
            </tr>
          </thead>
          <tbody>
            "

/-- Part 0 of static chunk 12 of the `render_html` template. -/
def tpl12p0 : String :=
  "
          </tbody>
        </table>
        <div class=\"footer\">
          Outputs: <b>report.html</b>, <b>report.pdf</b>, <b>report.json</b>, evidence in <b>raw_logs/</b>
        </div>
      </div>

      <div class=\"card span-12\">
        <div class=\"title\">What’s Included</div>
        <div class=\"sub\">
          This report contains evidence snapshots for Defender, Firewall, update history, local users,
"

/-- Part 1 of static chunk 12 of the `render_html` template. -/
def tpl12p1 : String :=
  "          and BitLocker (when available). Use the JSON output for automation pipelines.
        </div>
      </div>
    </div>
  </div>
</body>
</html>
"

/-- Static chunk 12 of the `render_html` template f-string. -/
def tpl12 : String :=
  tpl12p0 ++ tpl12p1

/-- The HTML renderer (`audit.py` lines 158-361): the template f-string
with the twelve interpolations, `esc` applied exactly where the source
applies it. -/
def render_html (report : Report) : String :=
  let hostname := report.system.hostname
  let score := report.score
  let findings := report.findings
  let uptime := report.uptime_seconds
  let defender_ok := report.defender.available
  let firewall_ok := report.firewall.available
  let updates_count := report.updates.updates.length
  let findings_rows := findingsRows findings
  tpl0 ++ esc hostname ++ tpl1 ++ esc hostname ++ tpl2 ++ esc report.system.os ++
    tpl3 ++ esc report.system.timestamp_utc ++ tpl4 ++ score_class score ++
    tpl5 ++ toString score ++ tpl6 ++ score_label score ++ tpl7 ++
    fmt_bool defender_ok ++ tpl8 ++ fmt_bool firewall_ok ++ tpl9 ++
    toString updates_count ++ tpl10 ++ uptimeStr uptime ++ tpl11 ++
    findings_rows ++ tpl12

/-- `String.append` acts as list append on the underlying characters. -/
theorem strData_append (a b : String) : (a ++ b).data = a.data ++ b.data := rfl

/-- One findings row, cut into its static and dynamic pieces in document
order (`rowStr` is their concatenation). -/
def rowSegs (f : Finding) : List (List Char) :=
  ["<tr><td>".data, "<span class='sev sev-".data, (strLower (esc f.severity)).data,
   "'>".data, (strUpper (strLower (esc f.severity))).data, "</span>".data,
   "</td><td><b>".data, (esc f.title).data, "</b><div class='muted'>".data,
   (esc f.detail).data, "</div></td><td class='right'>Action</td></tr>".data]

/-- All findings rows with the `"\n"` joiner, as pieces. -/
def rowsSegs : List Finding → List (List Char)
  | [] => []
  | [f] => rowSegs f
  | f :: fs => rowSegs f ++ ["\n".data] ++ rowsSegs fs

/-- A findings row is the concatenation of its pieces. -/
theorem rowStr_data (f : Finding) : (rowStr f).data = (rowSegs f).flatten := by
  simp [rowStr, rowSegs, strData_append]

/-- The joined findings rows are the concatenation of their pieces. -/
theorem rowsSegs_data : ∀ fs : List Finding,
    (pyJoin "\n" (fs.map rowStr)).data = (rowsSegs fs).flatten
  | [] => rfl
  | [f] => by
    simp [pyJoin, rowsSegs, rowStr_data]
  | f :: g :: gs => by
    have ih := rowsSegs_data (g :: gs)
    simp only [List.map_cons, pyJoin, rowsSegs, List.flatten_append,
      strData_append, rowStr_data] at *
    simp [ih]

/-- The rendered HTML, cut into its static and dynamic pieces in document
order. -/
def htmlSegs (r : Report) : List (List Char) :=
  [tpl0.data, (esc r.system.hostname).data,
   tpl1p0.data, tpl1p1.data, tpl1p2.data, tpl1p3.data, tpl1p4.data, tpl1p5.data,
   tpl1p6.data, tpl1p7.data, tpl1p8.data, tpl1p9.data, tpl1p10.data,
   (esc r.system.hostname).data,
   tpl2.data, (esc r.system.os).data, tpl3.data, (esc r.system.timestamp_utc).data,
   tpl4.data, (score_class r.score).data, tpl5.data, (toString r.score).data,
   tpl6.data, (score_label r.score).data, tpl7.data,
   (fmt_bool r.defender.available).data, tpl8.data,
   (fmt_bool r.firewall.available).data, tpl9.data,
   (toString r.updates.updates.length).data, tpl10.data,
   (uptimeStr r.uptime_seconds).data, tpl11.data] ++
  (if r.findings.isEmpty then [noFindingsRow.data] else rowsSegs r.findings) ++
  [tpl12p0.data, tpl12p1.data]

/-- The rendered HTML is the concatenation of its pieces. -/
theorem render_html_data (r : Report) :
    (render_html r).data = (htmlSegs r).flatten := by
  by_cases hf : r.findings.isEmpty
  · simp [render_html, htmlSegs, findingsRows, hf, strData_append, tpl1, tpl12]
  · simp [render_html, htmlSegs, findingsRows, hf, strData_append, rowsSegs_data,
      tpl1, tpl12]

/-- The attack marker of the escaping claim. -/
def scriptTag : List Char := "<script>".data

/-- A static template piece is benign when it does not contain
`<script>` and does not end with any nonempty prefix of `<script>` (so no
occurrence can start inside it and continue into later pieces). -/
def statOk (s : List Char) : Prop :=
  (¬ scriptTag <:+: s) ∧ ∀ p ∈ scriptTag.inits, p ≠ [] → ¬ p <:+ s

instance statOk_decidable (s : List Char) : Decidable (statOk s) := by
  unfold statOk
  infer_instance

/-- Splitting an infix of an append: it lies in the left part, in the right
part, or straddles the boundary with a nonempty piece on each side. -/
theorem infix_append_split {t a m : List Char} (h : t <:+: a ++ m) :
    t <:+: a ∨ t <:+: m ∨
      ∃ x y, x ++ y = t ∧ x ≠ [] ∧ y ≠ [] ∧ x <:+ a ∧ y <+: m := by
  obtain ⟨s, u, hsu⟩ := h
  have h2 : s ++ (t ++ u) = a ++ m := by
    rw [← List.append_assoc, hsu]
  rcases List.append_eq_append_iff.mp h2 with ⟨a', ha, hb⟩ | ⟨c', hc, hd⟩
  · rcases List.append_eq_append_iff.mp hb with ⟨b, hb1, hb2⟩ | ⟨c, hc1, hc2⟩
    · left
      exact ⟨s, b, by rw [ha, hb1, List.append_assoc]⟩
    · by_cases ha' : a' = []
      · subst ha'
        right; left
        exact ⟨[], u, by simp [hc1, hc2]⟩
      · by_cases hcc : c = []
        · subst hcc
          left
          refine ⟨s, [], ?_⟩
          simp only [List.append_nil] at hc1 ⊢
          rw [ha, hc1]
        · right; right
          exact ⟨a', c, hc1.symm, ha', hcc, ⟨s, ha.symm⟩, ⟨u, hc2.symm⟩⟩
  · right; left
    exact ⟨c', u, by rw [hd, List.append_assoc]⟩

/-- A nonempty prefix of `<script>` starts with `<`. -/
theorem scriptTag_front_lt {x : List Char} (hp : x <+: scriptTag) (hne : x ≠ []) :
    '<' ∈ x := by
  rcases x with _ | ⟨c, x'⟩
  · exact absurd rfl hne
  · obtain ⟨t, ht⟩ := hp
    have hc : c = '<' := by
      have hh := congrArg (fun l => l.head?) ht
      simpa [scriptTag] using hh
    simp [hc]

/-- No `<script>` occurs in a concatenation of pieces that are each either
benign statics or free of `<`. -/
theorem flatten_no_script (L : List (List Char))
    (h : ∀ s ∈ L, statOk s ∨ '<' ∉ s) : ¬ scriptTag <:+: L.flatten := by
  induction L with
  | nil =>
    intro hc
    simp [scriptTag] at hc
  | cons s L ih =>
    intro hc
    have hs := h s (List.mem_cons_self s L)
    have hL := ih fun t ht => h t (List.mem_cons_of_mem _ ht)
    rw [List.flatten_cons] at hc
    rcases infix_append_split hc with hc | hc | ⟨x, y, hxy, hxne, _, hxs, _⟩
    · rcases hs with hstat | hdyn
      · exact hstat.1 hc
      · exact hdyn (hc.subset (by decide))
    · exact hL hc
    · have hxp : x <+: scriptTag := ⟨y, hxy⟩
      rcases hs with hstat | hdyn
      · exact hstat.2 x ((List.mem_inits _ _).mpr hxp) hxne hxs
      · exact hdyn (hxs.subset (scriptTag_front_lt hxp hxne))

/-- `Char.ofNat` at a valid codepoint keeps the codepoint. -/
theorem char_toNat_ofNat {n : Nat} (h : n.isValidChar) :
    (Char.ofNat n).toNat = n := by
  rw [Char.ofNat, dif_pos h]
  rfl

/-- Lowering cannot produce a character outside `a`-`z` that was not
already there. -/
theorem char_toLower_ne (c d : Char) (hd : 123 ≤ d.toNat ∨ d.toNat < 97)
    (h : c ≠ d) : c.toLower ≠ d := by
  simp only [Char.toLower]
  split_ifs with hc
  · intro he
    have hv : (c.toNat + 32).isValidChar := Or.inl (by omega)
    have h2 : (Char.ofNat (c.toNat + 32)).toNat = c.toNat + 32 := char_toNat_ofNat hv
    rw [he] at h2
    omega
  · exact h

/-- Uppering cannot produce a character outside `A`-`Z` that was not
already there. -/
theorem char_toUpper_ne (c d : Char) (hd : 91 ≤ d.toNat ∨ d.toNat < 65)
    (h : c ≠ d) : c.toUpper ≠ d := by
  simp only [Char.toUpper]
  split_ifs with hc
  · intro he
    have hv : (c.toNat - 32).isValidChar := Or.inl (by omega)
    have h2 : (Char.ofNat (c.toNat - 32)).toNat = c.toNat - 32 := char_toNat_ofNat hv
    rw [he] at h2
    omega
  · exact h

/-- The escaped form of a string never contains `<`. -/
theorem lt_not_mem_escList (s : List Char) : '<' ∉ escList s := by
  intro h
  simp only [escList, List.mem_flatten, List.mem_map] at h
  obtain ⟨l, ⟨c, _, rfl⟩, hcl⟩ := h
  revert hcl
  unfold escChar
  split_ifs with h1 h2 h3
  · decide
  · decide
  · decide
  · intro hcl
    exact h2 (List.mem_singleton.mp hcl).symm

/-- Lowering preserves freedom from `<`. -/
theorem lt_not_mem_map_toLower {l : List Char} (h : '<' ∉ l) :
    '<' ∉ l.map Char.toLower := by
  intro hm
  obtain ⟨c, hc, he⟩ := List.mem_map.mp hm
  exact char_toLower_ne c '<' (Or.inr (by decide)) (fun hce => h (hce ▸ hc)) he

/-- Uppering preserves freedom from `<`. -/
theorem lt_not_mem_map_toUpper {l : List Char} (h : '<' ∉ l) :
    '<' ∉ l.map Char.toUpper := by
  intro hm
  obtain ⟨c, hc, he⟩ := List.mem_map.mp hm
  exact char_toUpper_ne c '<' (Or.inr (by decide)) (fun hce => h (hce ▸ hc)) he

/-- Decimal digit characters are never `<`. -/
theorem digitChar_ne_lt (n : Nat) : Nat.digitChar n ≠ '<' := by
  by_cases h : n < 16
  · interval_cases n <;> decide
  · unfold Nat.digitChar
    repeat rw [if_neg (by omega)]
    decide

/-- The digit expansion of a natural number never contains `<`. -/
theorem toDigitsCore_no_lt (fuel : Nat) : ∀ (n : Nat) (ds : List Char),
    '<' ∉ ds → '<' ∉ Nat.toDigitsCore 10 fuel n ds := by
  induction fuel with
  | zero => intro n ds h; exact h
  | succ fuel ih =>
    intro n ds h
    rw [Nat.toDigitsCore]
    split
    · intro hm
      rcases List.mem_cons.mp hm with he | hm
      · exact digitChar_ne_lt (n % 10) he.symm
      · exact h hm
    · refine ih (n / 10) _ ?_
      intro hm
      rcases List.mem_cons.mp hm with he | hm
      · exact digitChar_ne_lt (n % 10) he.symm
      · exact h hm

/-- `str(n)` of a natural number never contains `<`. -/
theorem nat_toString_no_lt (n : Nat) : '<' ∉ (toString n).data := by
  show '<' ∉ (Nat.repr n).data
  unfold Nat.repr Nat.toDigits
  exact toDigitsCore_no_lt _ _ _ (by simp)

/-- `str(i)` of an integer never contains `<`. -/
theorem int_toString_no_lt (i : Int) : '<' ∉ (toString i).data := by
  cases i with
  | ofNat n => exact nat_toString_no_lt n
  | negSucc n =>
    show '<' ∉ ("-" ++ toString (n + 1)).data
    rw [strData_append]
    intro hm
    rcases List.mem_append.mp hm with hm | hm
    · simp at hm
    · exact nat_toString_no_lt (n + 1) hm

/-- Escaped strings contain no `<`. -/
theorem esc_no_lt (s : String) : '<' ∉ (esc s).data :=
  lt_not_mem_escList s.data

/-- The lowered severity string contains no `<`. -/
theorem strLower_esc_no_lt (s : String) : '<' ∉ (strLower (esc s)).data :=
  lt_not_mem_map_toLower (esc_no_lt s)

/-- The uppered severity badge text contains no `<`. -/
theorem strUpper_strLower_esc_no_lt (s : String) :
    '<' ∉ (strUpper (strLower (esc s))).data :=
  lt_not_mem_map_toUpper (strLower_esc_no_lt s)

/-- The score CSS class contains no `<`. -/
theorem score_class_no_lt (s : Int) : '<' ∉ (score_class s).data := by
  unfold score_class
  split_ifs <;> decide

/-- The score label contains no `<`. -/
theorem score_label_no_lt (s : Int) : '<' ∉ (score_label s).data := by
  unfold score_label
  split_ifs <;> decide

/-- The availability cell contains no `<`. -/
theorem fmt_bool_no_lt (v : Bool) : '<' ∉ (fmt_bool v).data := by
  cases v <;> decide

/-- The uptime cell contains no `<`. -/
theorem uptimeStr_no_lt (u : Option Int) : '<' ∉ (uptimeStr u).data := by
  cases u with
  | none => decide
  | some u => exact int_toString_no_lt u

set_option maxRecDepth 10000

/-- Every piece of a findings row is a benign static or `<`-free. -/
theorem rowSegs_ok (f : Finding) : ∀ s ∈ rowSegs f, statOk s ∨ '<' ∉ s := by
  intro s hs
  simp only [rowSegs, List.mem_cons, List.not_mem_nil, or_false] at hs
  rcases hs with rfl | rfl | rfl | rfl | rfl | rfl | rfl | rfl | rfl | rfl | rfl
  · left; decide
  · left; decide
  · right; exact strLower_esc_no_lt _
  · left; decide
  · right; exact strUpper_strLower_esc_no_lt _
  · left; decide
  · left; decide
  · right; exact esc_no_lt _
  · left; decide
  · right; exact esc_no_lt _
  · left; decide

/-- Every piece of the joined findings rows is a benign static or
`<`-free. -/
theorem rowsSegs_ok : ∀ (fs : List Finding), ∀ s ∈ rowsSegs fs,
    statOk s ∨ '<' ∉ s
  | [] => by
    intro s hs
    simp [rowsSegs] at hs
  | [f] => by
    intro s hs
    exact rowSegs_ok f s hs
  | f :: g :: gs => by
    intro s hs
    rw [show rowsSegs (f :: g :: gs) =
      rowSegs f ++ ["\n".data] ++ rowsSegs (g :: gs) from rfl] at hs
    rcases List.mem_append.mp hs with hs | hs
    · rcases List.mem_append.mp hs with hs | hs
      · exact rowSegs_ok f s hs
      · left
        rw [List.mem_singleton.mp hs]
        decide
    · exact rowsSegs_ok (g :: gs) s hs

/-- Every piece of the rendered HTML is a benign static or `<`-free. -/
theorem htmlSegs_ok (r : Report) : ∀ s ∈ htmlSegs r, statOk s ∨ '<' ∉ s := by
  intro s hs
  unfold htmlSegs at hs
  rcases List.mem_append.mp hs with hs | hs
  · rcases List.mem_append.mp hs with hs | hs
    · simp only [List.mem_cons, List.not_mem_nil, or_false] at hs
      rcases hs with rfl | rfl | rfl | rfl | rfl | rfl | rfl | rfl | rfl | rfl |
        rfl | rfl | rfl | rfl | rfl | rfl | rfl | rfl | rfl | rfl | rfl | rfl |
        rfl | rfl | rfl | rfl | rfl | rfl | rfl | rfl | rfl | rfl | rfl
      · left; decide
      · right; exact esc_no_lt _
      · left; decide
      · left; decide
      · left; decide
      · left; decide
      · left; decide
      · left; decide
      · left; decide
      · left; decide
      · left; decide
      · left; decide
      · left; decide
      · right; exact esc_no_lt _
      · left; decide
      · right; exact esc_no_lt _
      · left; decide
      · right; exact esc_no_lt _
      · left; decide
      · right; exact score_class_no_lt _
      · left; decide
      · right; exact int_toString_no_lt _
      · left; decide
      · right; exact score_label_no_lt _
      · left; decide
      · right; exact fmt_bool_no_lt _
      · left; decide
      · right; exact fmt_bool_no_lt _
      · left; decide
      · right; exact nat_toString_no_lt _
      · left; decide
      · right; exact uptimeStr_no_lt _
      · left; decide
    · by_cases hf : r.findings.isEmpty
      · rw [if_pos hf] at hs
        left
        rw [List.mem_singleton.mp hs]
        decide
      · rw [if_neg hf] at hs
        exact rowsSegs_ok r.findings s hs
  · rcases List.mem_cons.mp hs with rfl | hs
    · left; decide
    · left
      rw [List.mem_singleton.mp hs]
      decide

/-- Escaping distributes over append. -/
theorem escList_append (a b : List Char) :
    escList (a ++ b) = escList a ++ escList b := by
  simp [escList]

/-- Escaping preserves substring occurrences. -/
theorem infix_escList {t s : List Char} (h : t <:+: s) :
    escList t <:+: escList s := by
  obtain ⟨u, v, rfl⟩ := h
  exact ⟨escList u, escList v, by rw [← escList_append, ← escList_append]⟩

/-- The escaped form of `<script>`. -/
theorem esc_script : escList "<script>".data = "&lt;script&gt;".data := by
  decide

/-- An infix of the left part is an infix of the append. -/
theorem infix_append_of_left {x a m : List Char} (h : x <:+: a) :
    x <:+: a ++ m := by
  obtain ⟨s, t, rfl⟩ := h
  exact ⟨s, t ++ m, by simp⟩

/-- An infix of the right part is an infix of the append. -/
theorem infix_append_of_right {x a m : List Char} (h : x <:+: m) :
    x <:+: a ++ m := by
  obtain ⟨s, t, rfl⟩ := h
  exact ⟨a ++ s, t, by simp⟩

/-- Every joined string occurs in the join. -/
theorem infix_pyJoin (sep : String) : ∀ (l : List String) (x : String),
    x ∈ l → x.data <:+: (pyJoin sep l).data
  | [], x, h => absurd h (List.not_mem_nil x)
  | [a], x, h => by
    have hx : x = a := by simpa using h
    subst hx
    exact List.infix_refl _
  | a :: b :: bs, x, h => by
    have he : pyJoin sep (a :: b :: bs) = (a ++ sep) ++ pyJoin sep (b :: bs) := rfl
    rcases List.mem_cons.mp h with rfl | h
    · refine ⟨[], (sep ++ pyJoin sep (b :: bs)).data, ?_⟩
      rw [he]
      simp [strData_append]
    · have ih := infix_pyJoin sep (b :: bs) x h
      rw [he, strData_append]
      exact infix_append_of_right ih

/-- C7: the renderer escapes every finding-derived string (severity, title,
detail, hostname, OS, timestamp pass through `esc` before embedding), so for
every report one of whose finding details contains `<script>`, the rendered
HTML contains the escaped form `&lt;script&gt;` and never the literal
`<script>` substring. -/
theorem render_html_escapes_script (r : Report)
    (h : ∃ f ∈ r.findings, "<script>".data <:+: f.detail.data) :
    "&lt;script&gt;".data <:+: (render_html r).data ∧
    ¬ "<script>".data <:+: (render_html r).data := by
  constructor
  · obtain ⟨f, hf, hdet⟩ := h
    have h1 : "&lt;script&gt;".data <:+: (esc f.detail).data := by
      have h0 := infix_escList hdet
      rw [esc_script] at h0
      exact h0
    have h2 : (esc f.detail).data <:+: (rowStr f).data := by
      refine ⟨("<tr><td>" ++ ("<span class='sev sev-" ++ strLower (esc f.severity) ++
        "'>" ++ strUpper (strLower (esc f.severity)) ++ "</span>") ++ "</td><td><b>" ++
        esc f.title ++ "</b><div class='muted'>").data,
        "</div></td><td class='right'>Action</td></tr>".data, ?_⟩
      simp [rowStr, strData_append]
    have h3 : (rowStr f).data <:+: (pyJoin "\n" (r.findings.map rowStr)).data :=
      infix_pyJoin "\n" _ _ (List.mem_map_of_mem rowStr hf)
    have hne : ¬ r.findings.isEmpty = true := by
      simp only [List.isEmpty_iff]
      exact List.ne_nil_of_mem hf
    rw [render_html_data r]
    unfold htmlSegs
    rw [if_neg hne, List.flatten_append, List.flatten_append]
    apply infix_append_of_left
    apply infix_append_of_right
    rw [← rowsSegs_data]
    exact h1.trans (h2.trans h3)
  · rw [render_html_data r]
    exact flatten_no_script _ (htmlSegs_ok r)

/-- Witness for the escaping theorem at a concrete report with a
`<script>`-bearing finding detail. -/
theorem render_html_escapes_script_witness :
    "&lt;script&gt;".data <:+:
      (render_html
        ⟨⟨"h", "os", "3.12", "t"⟩, Option.none, 45,
         [⟨"high", "T", "x<script>y"⟩],
         ⟨true, [], ""⟩, ⟨true, [], ""⟩, ⟨false, "", "e"⟩,
         ⟨false, [], "e"⟩, ⟨false, [], "e"⟩⟩).data ∧
    ¬ "<script>".data <:+:
      (render_html
        ⟨⟨"h", "os", "3.12", "t"⟩, Option.none, 45,
         [⟨"high", "T", "x<script>y"⟩],
         ⟨true, [], ""⟩, ⟨true, [], ""⟩, ⟨false, "", "e"⟩,
         ⟨false, [], "e"⟩, ⟨false, [], "e"⟩⟩).data :=
  render_html_escapes_script _
    ⟨⟨"high", "T", "x<script>y"⟩, by decide, by decide⟩
